import Mathlib

/-!
A shallow embedding of `src/find_old_large_files/find_old_large_files.py`.

The program walks a directory tree, collects every regular file whose size
exceeds a byte limit, whose age in days exceeds a day limit and whose
extension is not excluded, prints and logs each hit, and (after an input
prompt) renames each collected file into a flat trash directory.

Modelling choices:
* a path is its list of components (`os.path.join a b` is `a ++ [b]`,
  `os.path.basename` is the last component);
* the filesystem is a record holding the `os.walk` enumeration of the
  scanned root, an association list from path to file metadata, the set of
  existing directories, and the sets of paths on which `stat` or `rename`
  raise a non-`FileNotFoundError` OSError;
* times (`time.time()`, `st_mtime`) are rationals, so the float division
  in `file_age_in_days` is exact arithmetic;
* `logging` calls are modelled as an output list of `LogEntry` values, one
  constructor per `logging.info`/`logging.error` call site in the source
  (console prints duplicate the log lines and are not modelled separately);
* the thread pool of `scan_files` is modelled by processing the submitted
  futures in submission order; `concurrent.futures.wait` swallows an
  exception raised inside `process_file`, which the model records in a
  `raised` list on the scan state.
-/

namespace FindOldLargeFiles

/-- A filesystem path, as its list of components. -/
abbrev PyPath : Type := List String

/-- The Python exceptions the program can raise or catch. -/
inductive PyError : Type where
  | fileNotFoundError : PyError
  | permissionError : PyError
  | attributeError : PyError
  | osError : PyError
deriving DecidableEq, Repr

/-- Metadata of a regular file: `st_size`, `st_mtime`, and its content
(content only matters to the move phase). -/
structure FileInfo : Type where
  size : Nat
  mtime : ℚ
  content : String
deriving DecidableEq, Repr

/-- Result of `os.path.getsize` / `os.path.getmtime` on a path. -/
inductive StatRes : Type where
  | ok : FileInfo → StatRes
  | notFound : StatRes
  | permissionDenied : StatRes
deriving DecidableEq, Repr

/-- Find the metadata a path maps to in an association list of files. -/
def lookupFile (l : List (PyPath × FileInfo)) (p : PyPath) : Option FileInfo :=
  (l.find? (fun e => e.1 = p)).map (fun e => e.2)

/-- Drop a path from an association list of files. -/
def removeFile (l : List (PyPath × FileInfo)) (p : PyPath) : List (PyPath × FileInfo) :=
  l.filter (fun e => ¬ e.1 = p)

/-- Bind a path to metadata, replacing any previous binding (the overwrite
semantics of `os.rename` onto an existing target). -/
def setFile (l : List (PyPath × FileInfo)) (p : PyPath) (i : FileInfo) :
    List (PyPath × FileInfo) :=
  removeFile l p ++ [(p, i)]

/-- The filesystem state seen by one run. -/
structure FS : Type where
  /-- The `os.walk(dir_path)` enumeration: each entry is a folder together
  with the names of the regular files directly inside it. -/
  walk : List (PyPath × List String)
  /-- The regular files present, with their metadata. -/
  files : List (PyPath × FileInfo)
  /-- The directories present. -/
  dirs : List PyPath
  /-- Paths on which a stat call raises `PermissionError`. -/
  statDenied : List PyPath
  /-- Paths on which `os.rename` raises an OSError other than vanishing. -/
  renameDenied : List PyPath

/-- Whether a directory exists. -/
def FS.dirExists (fs : FS) (p : PyPath) : Prop := p ∈ fs.dirs

instance (fs : FS) (p : PyPath) : Decidable (fs.dirExists p) := by
  unfold FS.dirExists; infer_instance

/-- One stat call (`os.path.getsize` / `os.path.getmtime`) on a path. -/
def FS.statRes (fs : FS) (p : PyPath) : StatRes :=
  if p ∈ fs.statDenied then .permissionDenied
  else
    match lookupFile fs.files p with
    | some i => .ok i
    | none => .notFound

/-- `os.rename src dst`: moves the file at `src` to `dst`, silently
replacing an existing `dst`; raises if `src` is gone or the rename is
denied. -/
def FS.rename (fs : FS) (src dst : PyPath) : Except PyError FS :=
  if src ∈ fs.renameDenied then .error .osError
  else
    match lookupFile fs.files src with
    | none => .error .fileNotFoundError
    | some i => .ok { fs with files := setFile (removeFile fs.files src) dst i }

/-- The chain of ancestors of a path that `os.makedirs` may have to
create, innermost last (for `[a, b, c]`: `[a]`, `[a, b]`, `[a, b, c]`). -/
def dirChain (p : PyPath) : List PyPath :=
  (List.range p.length).map (fun k => p.take (k + 1))

/-- `os.makedirs(p, exist_ok=True)`: create the directory and every
missing ancestor; existing directories are left alone. -/
def FS.makedirs (fs : FS) (p : PyPath) : FS :=
  { fs with dirs := fs.dirs ++ (dirChain p).filter (fun q => ¬ q ∈ fs.dirs) }

/-- `pathlib.PurePath.suffix` of a single name: the substring from the
last dot on, empty when there is no dot, the only dot leads the name, or
the dot is the final character. -/
def pySuffix (name : String) : String :=
  let cs := name.toList
  match cs.reverse.findIdx? (fun c => c = '.') with
  | none => ""
  | some j =>
    let i := cs.length - 1 - j
    if 0 < i ∧ i < cs.length - 1 then String.mk (cs.drop i) else ""

/-- `os.path.basename` of a path built by `os.path.join(folder, name)`:
its last component. -/
def pyBasename (p : PyPath) : String := p.getLast?.getD ""

/-- One log line, one constructor per `logging.info`/`logging.error` call
site of the source (`print` lines duplicate log lines and are not
modelled separately). -/
inductive LogEntry : Type where
  /-- `logging.info('Total files in dir_path: %s', count)` -/
  | totalFiles : Nat → LogEntry
  /-- `logging.info('Added file to move: %s', file_path)` -/
  | addedFileToMove : PyPath → LogEntry
  /-- `logging.error('File not found: %s', file_path)` -/
  | fileNotFound : PyPath → LogEntry
  /-- `logging.info('Old, large file: %s Size: %.2f MB', ...)` -/
  | oldLargeMB : PyPath → ℚ → LogEntry
  /-- `logging.info('Old, large file: %s Size: %.2f GB', ...)` -/
  | oldLargeGB : PyPath → ℚ → LogEntry
  /-- `logging.info('Moved file to trash: %s', file_path)` -/
  | movedToTrash : PyPath → LogEntry
  /-- `logging.error('Error moving file: %s', e)`, for the move of the
  given source path (the logged exception names that path). -/
  | errorMoving : PyPath → LogEntry
  /-- `logging.info('Completed moving files to trash')` -/
  | completedMoving : LogEntry
deriving DecidableEq, Repr

/-- The state of one `FileScanner` instance: the five constructor
arguments plus the `files_to_move` accumulator. -/
structure FileScanner : Type where
  dir_path : PyPath
  size_limit : Nat
  days_limit : Int
  excluded_extensions : List String
  trash_dir : PyPath
  files_to_move : List PyPath
deriving DecidableEq, Repr

/-- `FileScanner.__init__`: stores the configuration and then calls
`logging.basicConfig(filename=os.path.join(trash_dir, 'file_scanner.log'))`,
which opens that file for append at once; the open raises
`FileNotFoundError` when the trash directory does not exist. -/
def FileScanner.init (fs : FS) (dir_path : PyPath) (size_limit : Nat)
    (days_limit : Int) (excluded_extensions : List String) (trash_dir : PyPath) :
    Except PyError FileScanner :=
  if fs.dirExists trash_dir then
    .ok { dir_path := dir_path, size_limit := size_limit, days_limit := days_limit,
          excluded_extensions := excluded_extensions, trash_dir := trash_dir,
          files_to_move := [] }
  else .error .fileNotFoundError

/-- `FileScanner.file_age_in_days`:
`(time.time() - os.path.getmtime(file_path)) / (60*60*24)`. -/
def file_age_in_days (now mtime : ℚ) : ℚ := (now - mtime) / (60 * 60 * 24)

/-- The condition of `process_file`, on the metadata one stat returned:
`os.path.getsize(file_path) > self.size_limit and
self.file_age_in_days(file_path) > self.days_limit and
not Path(file_path).suffix in self.excluded_extensions`. -/
def qualifies (now : ℚ) (s : FileScanner) (p : PyPath) (i : FileInfo) : Prop :=
  i.size > s.size_limit ∧
  file_age_in_days now i.mtime > (s.days_limit : ℚ) ∧
  ¬ pySuffix (pyBasename p) ∈ s.excluded_extensions

instance (now : ℚ) (s : FileScanner) (p : PyPath) (i : FileInfo) :
    Decidable (qualifies now s p i) := by
  unfold qualifies; infer_instance

/-- The log lines of `FileScanner.print_file`: size normalized to MB, or
to GB from 1024 MB up, 1 MB being 1024 * 1024 bytes. In the source the
handler re-stats the path; the embedding's filesystem is fixed during the
scan, so the re-stat returns the metadata the filter already read. -/
def print_file_log (p : PyPath) (i : FileInfo) : List LogEntry :=
  let size_in_mb : ℚ := (i.size : ℚ) / (1024 * 1024)
  if size_in_mb < 1024 then [.oldLargeMB p size_in_mb]
  else [.oldLargeGB p (size_in_mb / 1024)]

/-- `FileScanner.process_file(file_path, file_handler, pbar)`. Returns the
scanner, the progress counter and the emitted log lines, or the exception
the call raises. A stat that fails with `FileNotFoundError` is caught:
logged, the file skipped, and `pbar.update()` still runs (it sits after
the `try` block); any other exception propagates before the counter
update. `useHandler` tells whether a `file_handler` was passed
(`main` passes `print_file`; `None` means no handler). -/
def process_file (fs : FS) (now : ℚ) (useHandler : Bool) (s : FileScanner)
    (pbar : Nat) (p : PyPath) : Except PyError (FileScanner × Nat × List LogEntry) :=
  match fs.statRes p with
  | .permissionDenied => .error .permissionError
  | .notFound => .ok (s, pbar + 1, [.fileNotFound p])
  | .ok i =>
    if qualifies now s p i then
      .ok ({ s with files_to_move := s.files_to_move ++ [p] }, pbar + 1,
        .addedFileToMove p :: (if useHandler then print_file_log p i else []))
    else .ok (s, pbar + 1, [])

/-- The mutable state of one scan: the scanner instance, the `tqdm`
counter, the log produced so far, and the exceptions that escaped
`process_file` into their futures (swallowed by
`concurrent.futures.wait`). -/
structure ScanSt : Type where
  scanner : FileScanner
  pbar : Nat
  log : List LogEntry
  raised : List (PyPath × PyError)
deriving DecidableEq, Repr

/-- Run the future of one submitted `process_file` call. -/
def runFile (fs : FS) (now : ℚ) (useHandler : Bool) (st : ScanSt) (p : PyPath) :
    ScanSt :=
  match process_file fs now useHandler st.scanner st.pbar p with
  | .ok (s, pb, lg) => { st with scanner := s, pbar := pb, log := st.log ++ lg }
  | .error e => { st with raised := st.raised ++ [(p, e)] }

/-- The file paths `scan_files` submits, in submission order:
`os.path.join(foldername, filename)` over the walk. -/
def walkPaths (fs : FS) : List PyPath :=
  (fs.walk.map (fun e => e.2.map (fun fn => e.1 ++ [fn]))).flatten

/-- `FileScanner.count_files`: the number of filenames the walk yields. -/
def count_files (fs : FS) : Nat := (fs.walk.map (fun e => e.2.length)).sum

/-- `FileScanner.scan_files(file_handler)`: counts the files, then submits
`process_file` for each walked path and waits for all futures. The walk
and the stats only read the filesystem; the returned filesystem is the
one the scan ran on. -/
def scan_files (fs : FS) (now : ℚ) (useHandler : Bool) (s : FileScanner) :
    FS × ScanSt :=
  (fs, (walkPaths fs).foldl (runFile fs now useHandler)
    { scanner := s, pbar := 0, log := [.totalFiles (count_files fs)], raised := [] })

/-- The state after some moves: the filesystem, the `tqdm` counter and the
log lines of the move phase. -/
structure MoveSt : Type where
  fs : FS
  pbar : Nat
  log : List LogEntry

/-- One iteration of the move loop:
`os.rename(file_path, os.path.join(self.trash_dir, os.path.basename(file_path)))`
inside `try`; any exception is caught, logged, and the loop continues. -/
def moveOne (trash_dir : PyPath) (st : MoveSt) (p : PyPath) : MoveSt :=
  match st.fs.rename p (trash_dir ++ [pyBasename p]) with
  | .ok fs => { fs := fs, pbar := st.pbar + 1, log := st.log ++ [.movedToTrash p] }
  | .error _ => { st with pbar := st.pbar + 1, log := st.log ++ [.errorMoving p] }

/-- `FileScanner.move_files_to_trash`: `os.makedirs(trash_dir,
exist_ok=True)` first, then the sequential move loop over
`files_to_move`, then the completion log line. -/
def move_files_to_trash (fs : FS) (s : FileScanner) : MoveSt :=
  let st := s.files_to_move.foldl (moveOne s.trash_dir)
    { fs := fs.makedirs s.trash_dir, pbar := 0, log := [] }
  { st with log := st.log ++ [.completedMoving] }

/-- The parsed CLI arguments (`--size` in MB, `--days`, `--dir`,
`--exclude`, `--trash`). -/
structure Args : Type where
  size : Nat
  days : Int
  dir : PyPath
  exclude : List String
  trash : PyPath

/-- The method names the class `FileScanner` defines in the source. -/
def fileScannerMethodNames : List String :=
  ["__init__", "file_age_in_days", "count_files", "scan_files",
   "process_file", "move_files_to_trash", "print_file"]

/-- The instance attribute names `FileScanner.__init__` sets. -/
def fileScannerAttrNames : List String :=
  ["dir_path", "size_limit", "days_limit", "excluded_extensions",
   "trash_dir", "files_to_move"]

/-- Lines 98-99 of the source: `input("Press enter to move these files to
trash...")` followed by `scanner.move_files_to_trash()`. The prompt blocks
until the user answers with `response`, whose value `input` returns and
the program discards; the move runs whatever the response was. -/
def confirmAndMove (fs : FS) (s : FileScanner) (response : String) : MoveSt :=
  let _ := response
  move_files_to_trash fs s

/-- `main()` for a parsed `args`: converts `--size` from MB to bytes,
constructs the `FileScanner`, scans with `print_file` as handler, then at
line 97 evaluates `scanner.total_size_in_gb()` — an attribute lookup on
the instance, raising `AttributeError` unless the name is among the
class's methods or the instance's attributes — and only then prompts and
moves. -/
def main (fs : FS) (now : ℚ) (args : Args) (response : String) :
    Except PyError (FS × ScanSt × MoveSt) :=
  let size_limit := args.size * 1024 * 1024
  match FileScanner.init fs args.dir size_limit args.days args.exclude args.trash with
  | .error e => .error e
  | .ok scanner =>
    match scan_files fs now true scanner with
    | (fs1, st) =>
      if "total_size_in_gb" ∈ fileScannerMethodNames ∨
         "total_size_in_gb" ∈ fileScannerAttrNames then
        let mv := confirmAndMove fs1 st.scanner response
        .ok (mv.fs, st, mv)
      else .error .attributeError

/-! ### Concrete data

The spec's scenario (`--size 100 --days 365 --exclude .docx`, a root
holding `a.log` of 150 MB aged 400 days, `b.docx` of 200 MB aged 400
days, `c.log` of 150 MB aged 10 days), and small filesystems exercising
the move phase. `demoNow` is the clock; modification times are chosen so
the ages come out at exactly 400, 400 and 10 days. -/

/-- The scan clock, `time.time()`. -/
def demoNow : ℚ := 40000000

/-- `a.log`: 150 MB, 400 days old. -/
def demoALog : PyPath := ["root", "a.log"]

/-- `b.docx`: 200 MB, 400 days old, excluded extension. -/
def demoBDocx : PyPath := ["root", "b.docx"]

/-- `c.log`: 150 MB, 10 days old. -/
def demoCLog : PyPath := ["root", "c.log"]

/-- Metadata of `a.log`: 150 MB, mtime 400 days before `demoNow`. -/
def demoAInfo : FileInfo := { size := 157286400, mtime := 5440000, content := "A" }

/-- Metadata of `b.docx`: 200 MB, mtime 400 days before `demoNow`. -/
def demoBInfo : FileInfo := { size := 209715200, mtime := 5440000, content := "B" }

/-- Metadata of `c.log`: 150 MB, mtime 10 days before `demoNow`. -/
def demoCInfo : FileInfo := { size := 157286400, mtime := 39136000, content := "C" }

/-- The scenario filesystem: one folder with the three files; the default
trash directory exists. -/
def demoFS : FS :=
  { walk := [(["root"], ["a.log", "b.docx", "c.log"])],
    files := [(demoALog, demoAInfo), (demoBDocx, demoBInfo), (demoCLog, demoCInfo)],
    dirs := [["home"], ["home", "trash"]],
    statDenied := [], renameDenied := [] }

/-- The scenario scanner: size limit 100 MB in bytes, 365 days,
`.docx` excluded. -/
def demoScanner : FileScanner :=
  { dir_path := ["root"], size_limit := 100 * 1024 * 1024, days_limit := 365,
    excluded_extensions := [".docx"], trash_dir := ["home", "trash"],
    files_to_move := [] }

/-- The scenario CLI arguments. -/
def demoArgs : Args :=
  { size := 100, days := 365, dir := ["root"], exclude := [".docx"],
    trash := ["home", "trash"] }

/-- The scenario filesystem with the trash directory missing. -/
def demoFSNoTrash : FS := { demoFS with dirs := [["home"]] }

/-- A path that vanished before its stat call. -/
def demoGone : PyPath := ["root", "gone.log"]

/-- The scenario filesystem with the stat of `a.log` denied. -/
def demoFSDenied : FS := { demoFS with statDenied := [demoALog] }

/-- A scan state about to process a file. -/
def demoScanSt : ScanSt :=
  { scanner := demoScanner, pbar := 0, log := [], raised := [] }

/-- A collected file for the move-phase examples. -/
def demoMoveSrc : PyPath := ["u", "big.bin"]

/-- Its metadata. -/
def demoMoveInfo : FileInfo := { size := 1, mtime := 0, content := "payload" }

/-- A collected file that vanishes before its move. -/
def demoVanished : PyPath := ["u", "gone.bin"]

/-- A move-phase filesystem: `u/big.bin` exists, the trash directory
`t/r` does not. -/
def demoMoveFS : FS :=
  { walk := [], files := [(demoMoveSrc, demoMoveInfo)], dirs := [["u"]],
    statDenied := [], renameDenied := [] }

/-- A scanner that collected exactly `u/big.bin`, with trash `t/r`. -/
def demoMover : FileScanner :=
  { dir_path := ["u"], size_limit := 0, days_limit := 0,
    excluded_extensions := [], trash_dir := ["t", "r"],
    files_to_move := [demoMoveSrc] }

/-- A scanner that collected a vanished file and then `u/big.bin`. -/
def demoMover2 : FileScanner :=
  { demoMover with files_to_move := [demoVanished, demoMoveSrc] }

/-- Two collected files in different folders sharing the base name
`dup.bin`. -/
def demoColA : PyPath := ["a", "dup.bin"]

/-- The second file of the collision pair. -/
def demoColB : PyPath := ["b", "dup.bin"]

/-- Content of the first collision file. -/
def demoColAInfo : FileInfo := { size := 1, mtime := 0, content := "AA" }

/-- Content of the second collision file. -/
def demoColBInfo : FileInfo := { size := 2, mtime := 0, content := "BB" }

/-- The collision filesystem. -/
def demoColFS : FS :=
  { walk := [], files := [(demoColA, demoColAInfo), (demoColB, demoColBInfo)],
    dirs := [], statDenied := [], renameDenied := [] }

/-- A scanner that collected the collision pair, with trash `t`. -/
def demoColMover : FileScanner :=
  { dir_path := [], size_limit := 0, days_limit := 0,
    excluded_extensions := [], trash_dir := ["t"],
    files_to_move := [demoColA, demoColB] }

/-! ### Association-list and filesystem lemmas -/

theorem lookupFile_cons (e : PyPath × FileInfo) (l : List (PyPath × FileInfo))
    (p : PyPath) :
    lookupFile (e :: l) p = if e.1 = p then some e.2 else lookupFile l p := by
  by_cases h : e.1 = p
  · rw [if_pos h, lookupFile, List.find?, decide_eq_true h]
    rfl
  · rw [if_neg h, lookupFile, List.find?, decide_eq_false h]
    rfl

theorem removeFile_cons (e : PyPath × FileInfo) (l : List (PyPath × FileInfo))
    (p : PyPath) :
    removeFile (e :: l) p =
      if e.1 = p then removeFile l p else e :: removeFile l p := by
  by_cases h : e.1 = p
  · simp [removeFile, List.filter_cons, h]
  · simp [removeFile, List.filter_cons, h]

theorem lookupFile_removeFile_self (l : List (PyPath × FileInfo)) (p : PyPath) :
    lookupFile (removeFile l p) p = none := by
  induction l with
  | nil => rfl
  | cons e l ih =>
    rw [removeFile_cons]
    by_cases h : e.1 = p
    · rw [if_pos h]; exact ih
    · rw [if_neg h, lookupFile_cons, if_neg h]; exact ih

theorem lookupFile_removeFile_ne (l : List (PyPath × FileInfo)) {p q : PyPath}
    (h : q ≠ p) : lookupFile (removeFile l p) q = lookupFile l q := by
  induction l with
  | nil => rfl
  | cons e l ih =>
    rw [removeFile_cons]
    by_cases h1 : e.1 = p
    · have h2 : ¬ e.1 = q := fun hq => h ((hq ▸ h1 : q = p))
      rw [if_pos h1, lookupFile_cons, if_neg h2]; exact ih
    · rw [if_neg h1, lookupFile_cons, lookupFile_cons]
      by_cases h2 : e.1 = q
      · rw [if_pos h2, if_pos h2]
      · rw [if_neg h2, if_neg h2]; exact ih

theorem lookupFile_setFile_self (l : List (PyPath × FileInfo)) (p : PyPath)
    (i : FileInfo) : lookupFile (setFile l p i) p = some i := by
  induction l with
  | nil => simp [setFile, removeFile, lookupFile, List.find?]
  | cons e l ih =>
    rw [setFile, removeFile_cons]
    by_cases h : e.1 = p
    · rw [if_pos h]; exact ih
    · rw [if_neg h, List.cons_append, lookupFile_cons, if_neg h]; exact ih

theorem lookupFile_setFile_ne (l : List (PyPath × FileInfo)) {p q : PyPath}
    (i : FileInfo) (h : q ≠ p) :
    lookupFile (setFile l p i) q = lookupFile l q := by
  induction l with
  | nil =>
    have h' : ¬ p = q := fun hq => h hq.symm
    simp [setFile, removeFile, lookupFile, List.find?, h']
  | cons e l ih =>
    rw [setFile, removeFile_cons]
    by_cases h1 : e.1 = p
    · have h2 : ¬ e.1 = q := fun hq => h ((hq ▸ h1 : q = p))
      rw [if_pos h1, lookupFile_cons, if_neg h2]; exact ih
    · rw [if_neg h1, List.cons_append, lookupFile_cons, lookupFile_cons]
      by_cases h2 : e.1 = q
      · rw [if_pos h2, if_pos h2]
      · rw [if_neg h2, if_neg h2]; exact ih

theorem FS.rename_ok {fs : FS} {src : PyPath} (dst : PyPath) {i : FileInfo}
    (h₁ : src ∉ fs.renameDenied) (h₂ : lookupFile fs.files src = some i) :
    fs.rename src dst =
      .ok { fs with files := setFile (removeFile fs.files src) dst i } := by
  rw [FS.rename, if_neg h₁, h₂]

theorem FS.rename_vanished {fs : FS} {src : PyPath} (dst : PyPath)
    (h₁ : src ∉ fs.renameDenied) (h₂ : lookupFile fs.files src = none) :
    fs.rename src dst = .error .fileNotFoundError := by
  rw [FS.rename, if_neg h₁, h₂]

theorem FS.statRes_of_lookup {fs : FS} {p : PyPath} {i : FileInfo}
    (h₁ : p ∉ fs.statDenied) (h₂ : lookupFile fs.files p = some i) :
    fs.statRes p = .ok i := by
  rw [FS.statRes, if_neg h₁, h₂]

/-- `makedirs` touches only the directory set. -/
theorem FS.makedirs_files (fs : FS) (p : PyPath) :
    (fs.makedirs p).files = fs.files := rfl

theorem FS.makedirs_renameDenied (fs : FS) (p : PyPath) :
    (fs.makedirs p).renameDenied = fs.renameDenied := rfl

/-- A directory that existed before `makedirs` still exists after. -/
theorem FS.makedirs_mem_mono (fs : FS) (p : PyPath) {q : PyPath}
    (h : q ∈ fs.dirs) : q ∈ (fs.makedirs p).dirs := by
  rw [FS.makedirs]
  exact List.mem_append_left _ h

/-- After `makedirs p`, every ancestor of `p` (and `p` itself) exists. -/
theorem FS.makedirs_mem_chain (fs : FS) (p : PyPath) {q : PyPath}
    (h : q ∈ dirChain p) : q ∈ (fs.makedirs p).dirs := by
  rw [FS.makedirs]
  by_cases h' : q ∈ fs.dirs
  · exact List.mem_append_left _ h'
  · refine List.mem_append_right _ ?_
    rw [List.mem_filter]
    exact ⟨h, by simpa using h'⟩

/-- A nonempty path is the last element of its own ancestor chain. -/
theorem mem_dirChain_self {p : PyPath} (h : p ≠ []) : p ∈ dirChain p := by
  have hl : 0 < p.length := List.length_pos.mpr h
  rw [dirChain]
  refine List.mem_map.mpr ⟨p.length - 1, ?_, ?_⟩
  · exact List.mem_range.mpr (by omega)
  · rw [Nat.sub_add_cancel hl]
    simp

/-- `exist_ok=True`: when the whole ancestor chain already exists,
`makedirs` changes nothing. -/
theorem FS.makedirs_of_chain_present {fs : FS} {p : PyPath}
    (h : ∀ q ∈ dirChain p, q ∈ fs.dirs) : fs.makedirs p = fs := by
  have hf : (dirChain p).filter (fun q => decide (q ∉ fs.dirs)) = [] := by
    rw [List.filter_eq_nil_iff]
    intro q hq
    simpa using h q hq
  rw [FS.makedirs, hf, List.append_nil]

/-- `makedirs` is idempotent. -/
theorem FS.makedirs_makedirs (fs : FS) (p : PyPath) :
    (fs.makedirs p).makedirs p = fs.makedirs p :=
  FS.makedirs_of_chain_present (fun _ hq => FS.makedirs_mem_chain fs p hq)

theorem pyBasename_append (d : PyPath) (n : String) :
    pyBasename (d ++ [n]) = n := by
  rw [pyBasename, List.getLast?_concat]
  rfl

/-! ### Scan-phase step lemmas -/

/-- `qualifies` reads only the three limits of the scanner. -/
theorem qualifies_congr {now : ℚ} {s s₂ : FileScanner} {p : PyPath} {i : FileInfo}
    (h₁ : s₂.size_limit = s.size_limit) (h₂ : s₂.days_limit = s.days_limit)
    (h₃ : s₂.excluded_extensions = s.excluded_extensions) :
    qualifies now s₂ p i ↔ qualifies now s p i := by
  rw [qualifies, qualifies, h₁, h₂, h₃]

/-- A `process_file` call on a stat-denied path raises. -/
theorem process_file_denied {fs : FS} {now : ℚ} {uh : Bool} {s : FileScanner}
    {pbar : Nat} {p : PyPath} (h : fs.statRes p = .permissionDenied) :
    process_file fs now uh s pbar p = .error .permissionError := by
  rw [process_file, h]

/-- A `process_file` call on a vanished path catches the error, logs it
and still bumps the counter; the scanner is untouched. -/
theorem process_file_notFound {fs : FS} {now : ℚ} {uh : Bool} {s : FileScanner}
    {pbar : Nat} {p : PyPath} (h : fs.statRes p = .notFound) :
    process_file fs now uh s pbar p = .ok (s, pbar + 1, [.fileNotFound p]) := by
  rw [process_file, h]

theorem process_file_pos {fs : FS} {now : ℚ} {uh : Bool} {s : FileScanner}
    {pbar : Nat} {p : PyPath} {i : FileInfo} (h : fs.statRes p = .ok i)
    (hq : qualifies now s p i) :
    process_file fs now uh s pbar p =
      .ok ({ s with files_to_move := s.files_to_move ++ [p] }, pbar + 1,
        .addedFileToMove p :: (if uh then print_file_log p i else [])) := by
  rw [process_file, h]
  dsimp only
  rw [if_pos hq]

theorem process_file_neg {fs : FS} {now : ℚ} {uh : Bool} {s : FileScanner}
    {pbar : Nat} {p : PyPath} {i : FileInfo} (h : fs.statRes p = .ok i)
    (hq : ¬ qualifies now s p i) :
    process_file fs now uh s pbar p = .ok (s, pbar + 1, []) := by
  rw [process_file, h]
  dsimp only
  rw [if_neg hq]

theorem runFile_denied {fs : FS} {now : ℚ} {uh : Bool} {st : ScanSt} {p : PyPath}
    (h : fs.statRes p = .permissionDenied) :
    runFile fs now uh st p =
      { st with raised := st.raised ++ [(p, .permissionError)] } := by
  rw [runFile, process_file_denied h]

theorem runFile_notFound {fs : FS} {now : ℚ} {uh : Bool} {st : ScanSt} {p : PyPath}
    (h : fs.statRes p = .notFound) :
    runFile fs now uh st p =
      { st with pbar := st.pbar + 1, log := st.log ++ [.fileNotFound p] } := by
  rw [runFile, process_file_notFound h]

theorem runFile_pos {fs : FS} {now : ℚ} {uh : Bool} {st : ScanSt} {p : PyPath}
    {i : FileInfo} (h : fs.statRes p = .ok i)
    (hq : qualifies now st.scanner p i) :
    runFile fs now uh st p =
      { st with
          scanner := { st.scanner with
            files_to_move := st.scanner.files_to_move ++ [p] },
          pbar := st.pbar + 1,
          log := st.log ++
            (.addedFileToMove p :: (if uh then print_file_log p i else [])) } := by
  rw [runFile, process_file_pos h hq]

theorem runFile_neg {fs : FS} {now : ℚ} {uh : Bool} {st : ScanSt} {p : PyPath}
    {i : FileInfo} (h : fs.statRes p = .ok i)
    (hq : ¬ qualifies now st.scanner p i) :
    runFile fs now uh st p = { st with pbar := st.pbar + 1 } := by
  rw [runFile, process_file_neg h hq]
  simp

/-- `process_file` either raises, or appends a batch `d` to the
accumulator and bumps the counter by one; the branch taken, the batch and
the log lines depend only on the filesystem, the clock, the handler flag,
the path and the scanner's three limits — never on the accumulator or the
counter value. -/
theorem process_file_transfer (fs : FS) (now : ℚ) (uh : Bool) (s : FileScanner)
    (p : PyPath) :
    (∀ (s₂ : FileScanner) (pb₂ : Nat),
        s₂.size_limit = s.size_limit → s₂.days_limit = s.days_limit →
        s₂.excluded_extensions = s.excluded_extensions →
        process_file fs now uh s₂ pb₂ p = .error .permissionError) ∨
    ∃ (d : List PyPath) (lg : List LogEntry),
      ∀ (s₂ : FileScanner) (pb₂ : Nat),
        s₂.size_limit = s.size_limit → s₂.days_limit = s.days_limit →
        s₂.excluded_extensions = s.excluded_extensions →
        process_file fs now uh s₂ pb₂ p =
          .ok ({ s₂ with files_to_move := s₂.files_to_move ++ d }, pb₂ + 1, lg) := by
  cases hstat : fs.statRes p with
  | permissionDenied =>
    exact Or.inl (fun s₂ pb₂ _ _ _ => process_file_denied hstat)
  | notFound =>
    refine Or.inr ⟨[], [.fileNotFound p], fun s₂ pb₂ _ _ _ => ?_⟩
    rw [process_file_notFound hstat]
    simp
  | ok i =>
    by_cases hq : qualifies now s p i
    · refine Or.inr ⟨[p], .addedFileToMove p ::
        (if uh then print_file_log p i else []), fun s₂ pb₂ h1 h2 h3 => ?_⟩
      exact process_file_pos hstat ((qualifies_congr h1 h2 h3).mpr hq)
    · refine Or.inr ⟨[], [], fun s₂ pb₂ h1 h2 h3 => ?_⟩
      rw [process_file_neg hstat (fun hh => hq ((qualifies_congr h1 h2 h3).mp hh))]
      simp

/-- A scan fold never changes the scanner's configuration fields. -/
theorem scanFold_limits (fs : FS) (now : ℚ) (uh : Bool) :
    ∀ (ps : List PyPath) (st : ScanSt),
      (ps.foldl (runFile fs now uh) st).scanner.size_limit = st.scanner.size_limit ∧
      (ps.foldl (runFile fs now uh) st).scanner.days_limit = st.scanner.days_limit ∧
      (ps.foldl (runFile fs now uh) st).scanner.excluded_extensions =
        st.scanner.excluded_extensions ∧
      (ps.foldl (runFile fs now uh) st).scanner.trash_dir = st.scanner.trash_dir ∧
      (ps.foldl (runFile fs now uh) st).scanner.dir_path = st.scanner.dir_path := by
  intro ps
  induction ps with
  | nil => exact fun st => ⟨rfl, rfl, rfl, rfl, rfl⟩
  | cons p ps ih =>
    intro st
    rw [List.foldl_cons]
    rcases process_file_transfer fs now uh st.scanner p with hl | ⟨d, lg, hok⟩
    · have e : runFile fs now uh st p =
          { st with raised := st.raised ++ [(p, .permissionError)] } := by
        rw [runFile, hl st.scanner st.pbar rfl rfl rfl]
      rw [e]
      exact ih _
    · have e : runFile fs now uh st p =
          { st with
              scanner := { st.scanner with
                files_to_move := st.scanner.files_to_move ++ d },
              pbar := st.pbar + 1, log := st.log ++ lg } := by
        rw [runFile, hok st.scanner st.pbar rfl rfl rfl]
      rw [e]
      exact ih _

/-- Two scan folds over the same path list, from states whose scanners
share the three limits, append one and the same batch to their
respective accumulators. -/
theorem scanFold_delta (fs : FS) (now : ℚ) (uh : Bool) :
    ∀ (ps : List PyPath) (st₁ st₂ : ScanSt),
      st₂.scanner.size_limit = st₁.scanner.size_limit →
      st₂.scanner.days_limit = st₁.scanner.days_limit →
      st₂.scanner.excluded_extensions = st₁.scanner.excluded_extensions →
      ∃ d : List PyPath,
        (ps.foldl (runFile fs now uh) st₁).scanner.files_to_move
          = st₁.scanner.files_to_move ++ d ∧
        (ps.foldl (runFile fs now uh) st₂).scanner.files_to_move
          = st₂.scanner.files_to_move ++ d := by
  intro ps
  induction ps with
  | nil => exact fun st₁ st₂ _ _ _ => ⟨[], by simp, by simp⟩
  | cons p ps ih =>
    intro st₁ st₂ h1 h2 h3
    rw [List.foldl_cons, List.foldl_cons]
    rcases process_file_transfer fs now uh st₁.scanner p with hl | ⟨d₀, lg, hok⟩
    · have e₁ : runFile fs now uh st₁ p =
          { st₁ with raised := st₁.raised ++ [(p, .permissionError)] } := by
        rw [runFile, hl st₁.scanner st₁.pbar rfl rfl rfl]
      have e₂ : runFile fs now uh st₂ p =
          { st₂ with raised := st₂.raised ++ [(p, .permissionError)] } := by
        rw [runFile, hl st₂.scanner st₂.pbar h1 h2 h3]
      rw [e₁, e₂]
      exact ih _ _ h1 h2 h3
    · have e₁ : runFile fs now uh st₁ p =
          { st₁ with
              scanner := { st₁.scanner with
                files_to_move := st₁.scanner.files_to_move ++ d₀ },
              pbar := st₁.pbar + 1, log := st₁.log ++ lg } := by
        rw [runFile, hok st₁.scanner st₁.pbar rfl rfl rfl]
      have e₂ : runFile fs now uh st₂ p =
          { st₂ with
              scanner := { st₂.scanner with
                files_to_move := st₂.scanner.files_to_move ++ d₀ },
              pbar := st₂.pbar + 1, log := st₂.log ++ lg } := by
        rw [runFile, hok st₂.scanner st₂.pbar h1 h2 h3]
      rw [e₁, e₂]
      obtain ⟨d₁, hA, hB⟩ := ih
        { st₁ with
            scanner := { st₁.scanner with
              files_to_move := st₁.scanner.files_to_move ++ d₀ },
            pbar := st₁.pbar + 1, log := st₁.log ++ lg }
        { st₂ with
            scanner := { st₂.scanner with
              files_to_move := st₂.scanner.files_to_move ++ d₀ },
            pbar := st₂.pbar + 1, log := st₂.log ++ lg }
        h1 h2 h3
      refine ⟨d₀ ++ d₁, ?_, ?_⟩
      · rw [hA]; simp
      · rw [hB]; simp

/-! ### Move-phase fold lemmas -/

/-- A successful `os.rename` changes only the file map. -/
theorem FS.rename_shape {fs : FS} {src dst : PyPath} {fs' : FS}
    (h : fs.rename src dst = .ok fs') :
    fs'.walk = fs.walk ∧ fs'.dirs = fs.dirs ∧ fs'.statDenied = fs.statDenied ∧
      fs'.renameDenied = fs.renameDenied := by
  rw [FS.rename] at h
  by_cases hd : src ∈ fs.renameDenied
  · rw [if_pos hd] at h
    exact absurd h (by simp)
  · rw [if_neg hd] at h
    cases hm : lookupFile fs.files src with
    | none => rw [hm] at h; exact absurd h (by simp)
    | some i =>
      rw [hm] at h
      cases h
      exact ⟨rfl, rfl, rfl, rfl⟩

theorem moveOne_ok {t : PyPath} {st : MoveSt} {p : PyPath} {i : FileInfo}
    (h1 : p ∉ st.fs.renameDenied) (h2 : lookupFile st.fs.files p = some i) :
    moveOne t st p =
      { fs := { st.fs with
          files := setFile (removeFile st.fs.files p) (t ++ [pyBasename p]) i },
        pbar := st.pbar + 1, log := st.log ++ [.movedToTrash p] } := by
  rw [moveOne, FS.rename_ok _ h1 h2]

theorem moveOne_fail {t : PyPath} {st : MoveSt} {p : PyPath} {e : PyError}
    (h : st.fs.rename p (t ++ [pyBasename p]) = .error e) :
    moveOne t st p =
      { st with pbar := st.pbar + 1, log := st.log ++ [.errorMoving p] } := by
  rw [moveOne, h]

/-- The move loop never changes the directory set, the walk, or the
denial sets. -/
theorem moveFold_dirs (t : PyPath) :
    ∀ (ps : List PyPath) (st : MoveSt),
      (ps.foldl (moveOne t) st).fs.dirs = st.fs.dirs ∧
      (ps.foldl (moveOne t) st).fs.renameDenied = st.fs.renameDenied := by
  intro ps
  induction ps with
  | nil => exact fun st => ⟨rfl, rfl⟩
  | cons p ps ih =>
    intro st
    rw [List.foldl_cons]
    cases hr : st.fs.rename p (t ++ [pyBasename p]) with
    | ok fs' =>
      have e : moveOne t st p =
          { fs := fs', pbar := st.pbar + 1, log := st.log ++ [.movedToTrash p] } := by
        rw [moveOne, hr]
      obtain ⟨hw, hd, hs, hn⟩ := FS.rename_shape hr
      rw [e]
      obtain ⟨ihd, ihn⟩ := ih
        { fs := fs', pbar := st.pbar + 1, log := st.log ++ [.movedToTrash p] }
      exact ⟨by rw [ihd]; exact hd, by rw [ihn]; exact hn⟩
    | error e' =>
      have e : moveOne t st p =
          { st with pbar := st.pbar + 1, log := st.log ++ [.errorMoving p] } := by
        rw [moveOne, hr]
      rw [e]
      exact ih _

/-- The move loop logs exactly one line per collected file — a moved line
or an error line, in collection order — and bumps the counter once per
file: it never stops early, and it emits nothing else. -/
theorem moveFold_log (t : PyPath) :
    ∀ (ps : List PyPath) (st : MoveSt),
      ∃ flags : List Bool, flags.length = ps.length ∧
        (ps.foldl (moveOne t) st).log =
          st.log ++ (ps.zip flags).map
            (fun e => if e.2 then LogEntry.movedToTrash e.1
              else LogEntry.errorMoving e.1) ∧
        (ps.foldl (moveOne t) st).pbar = st.pbar + ps.length := by
  intro ps
  induction ps with
  | nil => exact fun st => ⟨[], rfl, by simp, by simp⟩
  | cons p ps ih =>
    intro st
    rw [List.foldl_cons]
    cases hr : st.fs.rename p (t ++ [pyBasename p]) with
    | ok fs' =>
      have e : moveOne t st p =
          { fs := fs', pbar := st.pbar + 1, log := st.log ++ [.movedToTrash p] } := by
        rw [moveOne, hr]
      rw [e]
      obtain ⟨fl, hlen, hlog, hpb⟩ := ih
        { fs := fs', pbar := st.pbar + 1, log := st.log ++ [.movedToTrash p] }
      refine ⟨true :: fl, by simp [hlen], ?_, ?_⟩
      · rw [hlog]; simp
      · rw [hpb]
        show st.pbar + 1 + ps.length = st.pbar + (p :: ps).length
        rw [List.length_cons]
        omega
    | error e' =>
      have e : moveOne t st p =
          { st with pbar := st.pbar + 1, log := st.log ++ [.errorMoving p] } := by
        rw [moveOne, hr]
      rw [e]
      obtain ⟨fl, hlen, hlog, hpb⟩ := ih
        { st with pbar := st.pbar + 1, log := st.log ++ [.errorMoving p] }
      refine ⟨false :: fl, by simp [hlen], ?_, ?_⟩
      · rw [hlog]; simp
      · rw [hpb]
        show st.pbar + 1 + ps.length = st.pbar + (p :: ps).length
        rw [List.length_cons]
        omega

/-- Every run of `main` raises before reaching the confirmation prompt:
at the `FileScanner` constructor when the trash directory is missing, and
otherwise at the `scanner.total_size_in_gb()` call of line 97, a method
the class never defines. -/
theorem main_eq_error (fs : FS) (now : ℚ) (args : Args) (resp : String) :
    main fs now args resp =
      .error (if fs.dirExists args.trash then PyError.attributeError
        else PyError.fileNotFoundError) := by
  by_cases h : fs.dirExists args.trash
  · rw [if_pos h, main, FileScanner.init, if_pos h]
    dsimp only
    rw [scan_files]
    dsimp only
    rw [if_neg (by decide)]
  · rw [if_neg h, main, FileScanner.init, if_neg h]

/-! ### The claims -/

/-- C1: the spec promises a summary line whose total equals the byte sum
of the collected files converted to GB, and claims the computation
succeeds on every run that reaches it.  The code disagrees: line 97
evaluates `scanner.total_size_in_gb()`, but `FileScanner` defines no such
method and `__init__` sets no such attribute, so every run that reaches
the summary step raises `AttributeError` instead of printing a total. -/
theorem C1_total_size_call_raises_attribute_error (fs : FS) (now : ℚ)
    (args : Args) (resp : String) (h : fs.dirExists args.trash) :
    "total_size_in_gb" ∉ fileScannerMethodNames ∧
    "total_size_in_gb" ∉ fileScannerAttrNames ∧
    main fs now args resp = .error .attributeError := by
  refine ⟨by decide, by decide, ?_⟩
  rw [main_eq_error, if_pos h]

/-- Witness for C1 at the scenario run: the trash directory exists, and
the run dies with `AttributeError` at the summary step. -/
theorem C1_total_size_witness :
    demoFS.dirExists demoArgs.trash ∧
    main demoFS demoNow demoArgs "" = .error .attributeError :=
  ⟨by decide,
    (C1_total_size_call_raises_attribute_error demoFS demoNow demoArgs ""
      (by decide)).2.2⟩

/-- C3 (amended): the prompt of line 98 does block before any move, and —
as written — the Mover is never invoked by `main`, because every run
raises before the prompt (`AttributeError` at the summary line, or
`FileNotFoundError` at construction).  But the claim's negative branch
does not exist in the code: `input(...)`'s return value is discarded, so
the post-prompt continuation invokes `move_files_to_trash` for every
response, a negative one included. -/
theorem C3_amended_prompt_response_ignored :
    (∀ (fs : FS) (now : ℚ) (args : Args) (resp : String),
        main fs now args resp =
          .error (if fs.dirExists args.trash then PyError.attributeError
            else PyError.fileNotFoundError)) ∧
    (∀ (fs : FS) (s : FileScanner) (r₁ r₂ : String),
        confirmAndMove fs s r₁ = confirmAndMove fs s r₂) :=
  ⟨main_eq_error, fun _ _ _ _ => rfl⟩

/-- Counterexample to C3 as stated: at the confirmation point, the user
answers with the negative response `"n"`, yet the collected file is
relocated into the trash directory all the same — the workflow does not
transition to Done without moving on a negative confirmation. -/
theorem C3_counterexample_negative_response_moves :
    lookupFile (confirmAndMove demoMoveFS demoMover "n").fs.files
      (["t", "r", "big.bin"]) = some demoMoveInfo ∧
    lookupFile (confirmAndMove demoMoveFS demoMover "n").fs.files
      demoMoveSrc = none := by
  decide

/-- C4: a scan reads the filesystem and mutates nothing on it, and
re-running the scan phase on the unchanged tree (and unchanged clock)
appends exactly the same collection of qualifying files again — the
result sets of the two runs are identical. -/
theorem C4_scan_idempotent_and_pure (fs : FS) (now : ℚ) (uh : Bool)
    (s : FileScanner) :
    (scan_files fs now uh s).1 = fs ∧
    ∃ d : List PyPath,
      (scan_files fs now uh s).2.scanner.files_to_move = s.files_to_move ++ d ∧
      (scan_files fs now uh ((scan_files fs now uh s).2.scanner)).2.scanner.files_to_move
        = (scan_files fs now uh s).2.scanner.files_to_move ++ d := by
  refine ⟨rfl, ?_⟩
  obtain ⟨hsz, hdy, hex, _, _⟩ := scanFold_limits fs now uh (walkPaths fs)
    { scanner := s, pbar := 0, log := [.totalFiles (count_files fs)], raised := [] }
  obtain ⟨d, h1, h2⟩ := scanFold_delta fs now uh (walkPaths fs)
    { scanner := s, pbar := 0, log := [.totalFiles (count_files fs)], raised := [] }
    { scanner := (scan_files fs now uh s).2.scanner, pbar := 0,
      log := [.totalFiles (count_files fs)], raised := [] }
    hsz hdy hex
  exact ⟨d, h1, h2⟩

/-- C5 (amended): when a rename fails the Mover logs the failure inline
and continues — the counter reaches every collected file, so the phase
never aborts partway — but no end-of-run failure report exists: the
entire move-phase log is one moved-or-error line per file, in collection
order, followed by the single completion line; no entry summarizes
success or failure counts. -/
theorem C5_amended_move_log_per_file_only (fs : FS) (s : FileScanner) :
    ∃ flags : List Bool, flags.length = s.files_to_move.length ∧
      (move_files_to_trash fs s).log =
        (s.files_to_move.zip flags).map
          (fun e => if e.2 then LogEntry.movedToTrash e.1
            else LogEntry.errorMoving e.1) ++ [LogEntry.completedMoving] ∧
      (move_files_to_trash fs s).pbar = s.files_to_move.length := by
  obtain ⟨fl, hlen, hlog, hpb⟩ := moveFold_log s.trash_dir s.files_to_move
    { fs := fs.makedirs s.trash_dir, pbar := 0, log := [] }
  refine ⟨fl, hlen, ?_, ?_⟩
  · show (s.files_to_move.foldl (moveOne s.trash_dir)
        { fs := fs.makedirs s.trash_dir, pbar := 0, log := [] }).log ++
        [LogEntry.completedMoving] = _
    rw [hlog]
    simp
  · show (s.files_to_move.foldl (moveOne s.trash_dir)
        { fs := fs.makedirs s.trash_dir, pbar := 0, log := [] }).pbar =
        s.files_to_move.length
    rw [hpb]
    show 0 + s.files_to_move.length = s.files_to_move.length
    omega

/-- Counterexample to C5 as stated: a run over two collected files whose
first move fails (the file vanished).  The mover continues and moves the
second file, but the complete log of the phase is the inline error line,
the moved line and the completion line — it contains no end-of-run report
of which files failed and no success/failure counts. -/
theorem C5_counterexample_failure_not_summarized :
    (move_files_to_trash demoMoveFS demoMover2).log =
      [.errorMoving demoVanished, .movedToTrash demoMoveSrc, .completedMoving] ∧
    lookupFile (move_files_to_trash demoMoveFS demoMover2).fs.files
      (["t", "r", "big.bin"]) = some demoMoveInfo := by
  decide

/-- C6: when the stat of a file fails because the file no longer exists,
`process_file` catches the `FileNotFoundError`: the file is logged and
skipped, it is not appended to `files_to_move`, the progress counter is
still updated, and the batch continues with the remaining files. -/
theorem C6_vanished_file_logged_skipped (fs : FS) (now : ℚ) (uh : Bool)
    (st : ScanSt) (p : PyPath) (rest : List PyPath)
    (h : fs.statRes p = .notFound) :
    process_file fs now uh st.scanner st.pbar p =
      .ok (st.scanner, st.pbar + 1, [.fileNotFound p]) ∧
    runFile fs now uh st p =
      { st with pbar := st.pbar + 1, log := st.log ++ [.fileNotFound p] } ∧
    (p :: rest).foldl (runFile fs now uh) st =
      rest.foldl (runFile fs now uh)
        { st with pbar := st.pbar + 1, log := st.log ++ [.fileNotFound p] } :=
  ⟨process_file_notFound h, runFile_notFound h,
    by rw [List.foldl_cons, runFile_notFound h]⟩

/-- Witness for C6: a path that is absent from the scenario filesystem is
logged and skipped, leaving the scanner untouched. -/
theorem C6_vanished_witness :
    demoFS.statRes demoGone = .notFound ∧
    runFile demoFS demoNow false demoScanSt demoGone =
      { demoScanSt with
          pbar := demoScanSt.pbar + 1,
          log := demoScanSt.log ++ [.fileNotFound demoGone] } :=
  ⟨by decide,
    (C6_vanished_file_logged_skipped demoFS demoNow false demoScanSt demoGone []
      (by decide)).2.1⟩

/-- C8: the constructor opens `<trash>/file_scanner.log` at once, so when
the trash directory does not exist at construction time the constructor
raises `FileNotFoundError`, `main` dies before any scan, and the trash
directory must therefore exist before the scan phase, not merely before
the move phase. -/
theorem C8_init_requires_existing_trash_dir (fs : FS) (args : Args)
    (now : ℚ) (resp : String) (h : ¬ fs.dirExists args.trash) :
    FileScanner.init fs args.dir (args.size * 1024 * 1024) args.days
      args.exclude args.trash = .error .fileNotFoundError ∧
    main fs now args resp = .error .fileNotFoundError := by
  constructor
  · rw [FileScanner.init, if_neg h]
  · rw [main_eq_error, if_neg h]

/-- Witness for C8 on the scenario filesystem with the trash directory
removed. -/
theorem C8_init_witness :
    ¬ demoFSNoTrash.dirExists demoArgs.trash ∧
    main demoFSNoTrash demoNow demoArgs "" = .error .fileNotFoundError :=
  ⟨by decide,
    (C8_init_requires_existing_trash_dir demoFSNoTrash demoArgs demoNow ""
      (by decide)).2⟩

/-- C9: `process_file` catches only `FileNotFoundError`; a stat failing
with any other error (here `PermissionError`) makes the call raise, so
the file is neither collected nor logged and the progress counter is not
updated — the exception is merely captured by the future. -/
theorem C9_non_vanish_stat_error_propagates (fs : FS) (now : ℚ) (uh : Bool)
    (st : ScanSt) (p : PyPath) (h : fs.statRes p = .permissionDenied) :
    process_file fs now uh st.scanner st.pbar p = .error .permissionError ∧
    runFile fs now uh st p =
      { st with raised := st.raised ++ [(p, PyError.permissionError)] } :=
  ⟨process_file_denied h, runFile_denied h⟩

/-- Witness for C9: on the scenario filesystem with the stat of `a.log`
denied, processing `a.log` raises and leaves scanner, log and counter
untouched. -/
theorem C9_stat_denied_witness :
    demoFSDenied.statRes demoALog = .permissionDenied ∧
    runFile demoFSDenied demoNow false demoScanSt demoALog =
      { demoScanSt with
          raised := demoScanSt.raised ++ [(demoALog, PyError.permissionError)] } :=
  ⟨by decide,
    (C9_non_vanish_stat_error_propagates demoFSDenied demoNow false demoScanSt
      demoALog (by decide)).2⟩

/-- C7: `move_files_to_trash` opens with `os.makedirs(trash_dir,
exist_ok=True)`, so before any rename the trash directory and all its
missing ancestors exist (and creating them again changes nothing);
and a successfully moved file ends up inside the trash directory under
its original base name, its source path left empty. -/
theorem C7_trash_created_with_parents_before_renames (fs : FS) (s : FileScanner) :
    (∀ q ∈ dirChain s.trash_dir, q ∈ (move_files_to_trash fs s).fs.dirs) ∧
    (s.trash_dir ≠ [] → s.trash_dir ∈ (move_files_to_trash fs s).fs.dirs) ∧
    ((fs.makedirs s.trash_dir).makedirs s.trash_dir = fs.makedirs s.trash_dir) ∧
    (∀ (p : PyPath) (i : FileInfo),
        s.files_to_move = [p] → lookupFile fs.files p = some i →
        p ∉ fs.renameDenied → p ≠ s.trash_dir ++ [pyBasename p] →
        lookupFile (move_files_to_trash fs s).fs.files
            (s.trash_dir ++ [pyBasename p]) = some i ∧
          lookupFile (move_files_to_trash fs s).fs.files p = none) := by
  have hdirs : (move_files_to_trash fs s).fs.dirs = (fs.makedirs s.trash_dir).dirs := by
    show (s.files_to_move.foldl (moveOne s.trash_dir)
      { fs := fs.makedirs s.trash_dir, pbar := 0, log := [] }).fs.dirs = _
    exact (moveFold_dirs s.trash_dir s.files_to_move _).1
  refine ⟨?_, ?_, FS.makedirs_makedirs fs s.trash_dir, ?_⟩
  · intro q hq
    rw [hdirs]
    exact FS.makedirs_mem_chain fs s.trash_dir hq
  · intro hne
    rw [hdirs]
    exact FS.makedirs_mem_chain fs s.trash_dir (mem_dirChain_self hne)
  · intro p i hmove hlook hdeny htgt
    have hfiles : (move_files_to_trash fs s).fs.files =
        setFile (removeFile fs.files p) (s.trash_dir ++ [pyBasename p]) i := by
      show (s.files_to_move.foldl (moveOne s.trash_dir)
        { fs := fs.makedirs s.trash_dir, pbar := 0, log := [] }).fs.files = _
      rw [hmove, List.foldl_cons, List.foldl_nil, moveOne_ok hdeny hlook]
      rfl
    constructor
    · rw [hfiles, lookupFile_setFile_self]
    · rw [hfiles, lookupFile_setFile_ne _ i htgt, lookupFile_removeFile_self]

/-- Witness for C7: moving the single collected file `u/big.bin` into the
initially absent trash directory `t/r` creates `t` and `t/r` and leaves
the file at `t/r/big.bin`. -/
theorem C7_trash_witness :
    demoMover.trash_dir ∈ (move_files_to_trash demoMoveFS demoMover).fs.dirs ∧
    lookupFile (move_files_to_trash demoMoveFS demoMover).fs.files
      (demoMover.trash_dir ++ [pyBasename demoMoveSrc]) = some demoMoveInfo ∧
    lookupFile (move_files_to_trash demoMoveFS demoMover).fs.files
      demoMoveSrc = none :=
  ⟨(C7_trash_created_with_parents_before_renames demoMoveFS demoMover).2.1
      (by decide),
   ((C7_trash_created_with_parents_before_renames demoMoveFS demoMover).2.2.2
      demoMoveSrc demoMoveInfo rfl (by decide) (by decide) (by decide)).1,
   ((C7_trash_created_with_parents_before_renames demoMoveFS demoMover).2.2.2
      demoMoveSrc demoMoveInfo rfl (by decide) (by decide) (by decide)).2⟩

/-- C10: two collected files from different source folders with the same
base name are renamed to the identical target path in the flat trash
directory; the second rename silently replaces the first file's content,
which afterwards is at neither source, and not at the target either. -/
theorem C10_basename_collision_overwrites (fs : FS) (s : FileScanner)
    (d₁ d₂ : PyPath) (n : String) (i₁ i₂ : FileInfo)
    (hmove : s.files_to_move = [d₁ ++ [n], d₂ ++ [n]])
    (h₁ : lookupFile fs.files (d₁ ++ [n]) = some i₁)
    (h₂ : lookupFile fs.files (d₂ ++ [n]) = some i₂)
    (hr₁ : d₁ ++ [n] ∉ fs.renameDenied) (hr₂ : d₂ ++ [n] ∉ fs.renameDenied)
    (hne : d₁ ≠ d₂)
    (ht₁ : d₁ ++ [n] ≠ s.trash_dir ++ [n]) (ht₂ : d₂ ++ [n] ≠ s.trash_dir ++ [n]) :
    s.trash_dir ++ [pyBasename (d₁ ++ [n])] =
      s.trash_dir ++ [pyBasename (d₂ ++ [n])] ∧
    lookupFile (move_files_to_trash fs s).fs.files (s.trash_dir ++ [n]) = some i₂ ∧
    lookupFile (move_files_to_trash fs s).fs.files (d₁ ++ [n]) = none ∧
    lookupFile (move_files_to_trash fs s).fs.files (d₂ ++ [n]) = none ∧
    (i₁ ≠ i₂ →
      ¬ lookupFile (move_files_to_trash fs s).fs.files (s.trash_dir ++ [n])
          = some i₁) := by
  have hp12 : d₁ ++ [n] ≠ d₂ ++ [n] := fun hh => hne (by simpa using hh)
  have hp21 : d₂ ++ [n] ≠ d₁ ++ [n] := fun hh => hp12 hh.symm
  have e₁ : moveOne s.trash_dir
      { fs := fs.makedirs s.trash_dir, pbar := 0, log := [] } (d₁ ++ [n]) =
      { fs := { fs.makedirs s.trash_dir with
          files := setFile (removeFile fs.files (d₁ ++ [n]))
            (s.trash_dir ++ [n]) i₁ },
        pbar := 1, log := [.movedToTrash (d₁ ++ [n])] } := by
    rw [moveOne_ok hr₁ h₁, pyBasename_append]
    rfl
  have hlook₂ : lookupFile
      (setFile (removeFile fs.files (d₁ ++ [n])) (s.trash_dir ++ [n]) i₁)
      (d₂ ++ [n]) = some i₂ := by
    rw [lookupFile_setFile_ne _ i₁ ht₂, lookupFile_removeFile_ne _ hp21, h₂]
  have e₂ : moveOne s.trash_dir
      { fs := { fs.makedirs s.trash_dir with
          files := setFile (removeFile fs.files (d₁ ++ [n]))
            (s.trash_dir ++ [n]) i₁ },
        pbar := 1, log := [.movedToTrash (d₁ ++ [n])] } (d₂ ++ [n]) =
      { fs := { fs.makedirs s.trash_dir with
          files := setFile (removeFile
            (setFile (removeFile fs.files (d₁ ++ [n])) (s.trash_dir ++ [n]) i₁)
            (d₂ ++ [n])) (s.trash_dir ++ [n]) i₂ },
        pbar := 2,
        log := [.movedToTrash (d₁ ++ [n]), .movedToTrash (d₂ ++ [n])] } := by
    rw [moveOne_ok hr₂ hlook₂, pyBasename_append]
    rfl
  have hfiles : (move_files_to_trash fs s).fs.files =
      setFile (removeFile
        (setFile (removeFile fs.files (d₁ ++ [n])) (s.trash_dir ++ [n]) i₁)
        (d₂ ++ [n])) (s.trash_dir ++ [n]) i₂ := by
    show (s.files_to_move.foldl (moveOne s.trash_dir)
      { fs := fs.makedirs s.trash_dir, pbar := 0, log := [] }).fs.files = _
    rw [hmove, List.foldl_cons, List.foldl_cons, List.foldl_nil, e₁, e₂]
  have htgt : lookupFile (move_files_to_trash fs s).fs.files
      (s.trash_dir ++ [n]) = some i₂ := by
    rw [hfiles, lookupFile_setFile_self]
  refine ⟨by rw [pyBasename_append, pyBasename_append], htgt, ?_, ?_, ?_⟩
  · rw [hfiles, lookupFile_setFile_ne _ i₂ ht₁, lookupFile_removeFile_ne _ hp12,
      lookupFile_setFile_ne _ i₁ ht₁, lookupFile_removeFile_self]
  · rw [hfiles, lookupFile_setFile_ne _ i₂ ht₂, lookupFile_removeFile_self]
  · intro hii hcontra
    rw [htgt] at hcontra
    exact hii (Option.some.inj hcontra).symm

/-- Witness for C10: both `a/dup.bin` and `b/dup.bin` are renamed to
`t/dup.bin`; afterwards the target holds the second file's content, both
sources are empty, and the first file's content is gone. -/
theorem C10_collision_witness :
    lookupFile (move_files_to_trash demoColFS demoColMover).fs.files
      (demoColMover.trash_dir ++ ["dup.bin"]) = some demoColBInfo ∧
    lookupFile (move_files_to_trash demoColFS demoColMover).fs.files
      demoColA = none ∧
    ¬ lookupFile (move_files_to_trash demoColFS demoColMover).fs.files
        (demoColMover.trash_dir ++ ["dup.bin"]) = some demoColAInfo :=
  ⟨(C10_basename_collision_overwrites demoColFS demoColMover ["a"] ["b"]
      "dup.bin" demoColAInfo demoColBInfo rfl (by decide) (by decide)
      (by decide) (by decide) (by decide) (by decide) (by decide)).2.1,
   (C10_basename_collision_overwrites demoColFS demoColMover ["a"] ["b"]
      "dup.bin" demoColAInfo demoColBInfo rfl (by decide) (by decide)
      (by decide) (by decide) (by decide) (by decide) (by decide)).2.2.1,
   (C10_basename_collision_overwrites demoColFS demoColMover ["a"] ["b"]
      "dup.bin" demoColAInfo demoColBInfo rfl (by decide) (by decide)
      (by decide) (by decide) (by decide) (by decide) (by decide)).2.2.2.2
      (by decide)⟩

/-- C2: a statted file is appended to `files_to_move` exactly when its
size strictly exceeds the byte limit, its age in days — `(time.time() -
mtime) / 86400` — strictly exceeds the day limit, and its suffix (leading
dot included, case-sensitive) is not excluded; and in the spec's scenario
(size 100 MB, days 365, exclude `.docx`, with `a.log` 150 MB / 400 days,
`b.docx` 200 MB / 400 days, `c.log` 150 MB / 10 days) the scan collects
exactly `a.log`. -/
theorem C2_filter_iff_and_scenario :
    (∀ (fs : FS) (now : ℚ) (uh : Bool) (s : FileScanner) (pbar : Nat)
        (p : PyPath) (i : FileInfo),
      fs.statRes p = .ok i →
      ((process_file fs now uh s pbar p).map (fun r => r.1.files_to_move)
          = .ok (s.files_to_move ++ [p]) ↔
        (i.size > s.size_limit ∧
          file_age_in_days now i.mtime > (s.days_limit : ℚ) ∧
          pySuffix (pyBasename p) ∉ s.excluded_extensions))) ∧
    (scan_files demoFS demoNow false demoScanner).2.scanner.files_to_move
      = [demoALog] := by
  constructor
  · intro fs now uh s pbar p i h
    by_cases hq : qualifies now s p i
    · rw [process_file_pos h hq]
      exact ⟨fun _ => hq, fun _ => rfl⟩
    · rw [process_file_neg h hq]
      constructor
      · intro hc
        have : s.files_to_move = s.files_to_move ++ [p] :=
          Option.some.inj (congrArg (fun x => x.toOption) hc)
        simp at this
      · intro hrhs
        exact absurd hrhs hq
  · have hA : demoFS.statRes demoALog = .ok demoAInfo := by decide
    have hB : demoFS.statRes demoBDocx = .ok demoBInfo := by decide
    have hC : demoFS.statRes demoCLog = .ok demoCInfo := by decide
    have hqA : qualifies demoNow demoScanner demoALog demoAInfo := by
      refine ⟨by decide, ?_, by decide⟩
      norm_num [file_age_in_days, demoNow, demoAInfo, demoScanner]
    have hqB : ¬ qualifies demoNow demoScanner demoBDocx demoBInfo :=
      fun hq => hq.2.2 (by decide)
    have hqC : ¬ qualifies demoNow demoScanner demoCLog demoCInfo := by
      intro hq
      have hage := hq.2.1
      norm_num [file_age_in_days, demoNow, demoCInfo, demoScanner] at hage
    have hwalk : walkPaths demoFS = [demoALog, demoBDocx, demoCLog] := by decide
    show (List.foldl (runFile demoFS demoNow false)
      { scanner := demoScanner, pbar := 0,
        log := [.totalFiles (count_files demoFS)], raised := [] }
      (walkPaths demoFS)).scanner.files_to_move = [demoALog]
    rw [hwalk, List.foldl_cons, List.foldl_cons, List.foldl_cons, List.foldl_nil]
    rw [runFile_pos hA hqA, runFile_neg hB hqB, runFile_neg hC hqC]
    rfl

/-- Witness for C2 at `a.log` of the scenario: the stat hypothesis holds
and the appended-iff-qualifies equivalence is available at that input. -/
theorem C2_filter_witness :
    demoFS.statRes demoALog = .ok demoAInfo ∧
    ((process_file demoFS demoNow false demoScanner 0 demoALog).map
        (fun r => r.1.files_to_move)
        = .ok (demoScanner.files_to_move ++ [demoALog]) ↔
      (demoAInfo.size > demoScanner.size_limit ∧
        file_age_in_days demoNow demoAInfo.mtime > (demoScanner.days_limit : ℚ) ∧
        pySuffix (pyBasename demoALog) ∉ demoScanner.excluded_extensions)) :=
  ⟨by decide,
    C2_filter_iff_and_scenario.1 demoFS demoNow false demoScanner 0 demoALog
      demoAInfo (by decide)⟩

end FindOldLargeFiles
